import Mathlib

/-
  Verification of the batched propagation pipeline of the sgp4gl-demo
  repository (the Cesium satellite tracker component, src/unnamed/part_000).

  The embedding models:
  - `tleEpochToJulian` : the TLE epoch decoder (two-digit year pivot rule),
    with instants represented as rational milliseconds since the Unix epoch
    (1970-01-01T00:00:00Z).  The external date library is replaced by the
    standard civil-calendar day-count algorithm.
  - the `boot` registration phase : filtering of raw TLE triplets, metadata
    index assignment, and the single batched backend registration call.
  - the `propagateLoop` / cleanup (`tryUnregister`) pair : a small-step
    transition system over an explicit state record, with ghost counters
    for backend calls started, release invocations, and logged failures.
  - the `animate` render consumption step : wraparound check, rate-limited
    coordinate-frame transform recompute, and the per-index position copy.
-/

namespace SGP4GLDemo

/-! ## Calendar arithmetic (models Date.UTC of the host environment) -/

/-- Days from 1970-01-01 to the civil date y-m-d (proleptic Gregorian).
Standard era-based day-count algorithm; all intermediate divisions act on
nonnegative numbers, so truncated, floored and Euclidean division agree.
Valid for years of the TLE pivot range (1957..2056). -/
def daysFromCivil (y m d : Nat) : Int :=
  let y2 := if m ≤ 2 then y - 1 else y
  let era := y2 / 400
  let yoe := y2 - era * 400
  let mp := if 2 < m then m - 3 else m + 9
  let doy := (153 * mp + 2) / 5 + d - 1
  let doe := yoe * 365 + yoe / 4 - yoe / 100 + doy
  (era * 146097 + doe : Int) - 719468

/-- Milliseconds since the Unix epoch of the instant y-m-d h:mi:sec UTC. -/
def utcMs (y m d h mi sec : Nat) : ℚ :=
  ((daysFromCivil y m d) * 86400 + (h * 3600 + mi * 60 + sec : Nat)) * 1000

/-! ## Epoch string parsing (models parseInt / parseFloat on the
fixed-format TLE epoch field) -/

/-- Numeric value of a decimal digit character. -/
def digitVal (c : Char) : Nat := c.toNat - 48

/-- Value of a string of decimal digits (models parseInt on digits). -/
def parseNatDigits (l : List Char) : Nat :=
  l.foldl (fun a c => a * 10 + digitVal c) 0

/-- Value of a fixed-decimal string DDD.FFF (models parseFloat on the TLE
fractional day-of-year field). -/
def parseFloatFixed (l : List Char) : ℚ :=
  let ip := l.takeWhile (fun c => c ≠ '.')
  let fp := (l.dropWhile (fun c => c ≠ '.')).drop 1
  (parseNatDigits ip : ℚ) + (parseNatDigits fp : ℚ) / (10 : ℚ) ^ fp.length

/-- Embedding of `tleEpochToJulian` (src/unnamed/part_000, lines 224-231):
  year := parseInt(epochStr.substring(0,2)); day := parseFloat(epochStr.substring(2));
  year := year < 57 ? 2000 + year : 1900 + year;
  epochTimeMs := Date.UTC(year,0,1) + (day - 1) * 24*60*60*1000.
The result is the decoded instant in milliseconds since the Unix epoch. -/
def tleEpochToJulian (epochStr : String) : ℚ :=
  let cs := epochStr.toList
  let year2 := parseNatDigits (cs.take 2)
  let day := parseFloatFixed (cs.drop 2)
  let year := if year2 < 57 then 2000 + year2 else 1900 + year2
  (daysFromCivil year 1 1 : ℚ) * 86400000 + (day - 1) * 86400000

/-! ## Position buffers and the target-buffer write -/

/-- One entry of the position double buffer (meters, TEME frame). -/
structure PosBuf where
  x : ℚ
  y : ℚ
  z : ℚ
deriving DecidableEq

instance : Inhabited PosBuf := ⟨⟨0, 0, 0⟩⟩

/-- The sample written into target index i from the flat backend result,
at a stride of 6 components per satellite, kilometers converted to meters:
  tgt[i].x = flat[6i] * 1000, tgt[i].y = flat[6i+1] * 1000,
  tgt[i].z = flat[6i+2] * 1000. -/
def sampleAt (flat : List ℚ) (i : Nat) : PosBuf :=
  { x := flat.getD (6 * i) 0 * 1000
    y := flat.getD (6 * i + 1) 0 * 1000
    z := flat.getD (6 * i + 2) 0 * 1000 }

/-- Recursion over the target buffer carrying the running index. -/
def writeTargetAux (n : Nat) (flat : List ℚ) : Nat → List PosBuf → List PosBuf
  | _, [] => []
  | i, p :: rest =>
      (if i < n then sampleAt flat i else p) :: writeTargetAux n flat (i + 1) rest

/-- Embedding of the target-buffer update of `propagateLoop`
(src/unnamed/part_000, lines 455-463):
  N := flat.length / 6;  for i in [0, N): tgt[i] := sample i of flat, km -> m.
Entries at indices at or beyond N keep their previous value. -/
def writeTarget (tgt : List PosBuf) (flat : List ℚ) : List PosBuf :=
  writeTargetAux (flat.length / 6) flat 0 tgt

/-! ## Boot registration phase (Element Registry) -/

/-- A raw TLE triplet as received by the component; an entry that is not a
string in the source feed is `none`. -/
structure RawTLE where
  l0 : Option String
  l1 : Option String
  l2 : Option String
deriving DecidableEq

/-- Satellite display name (boot, lines 347-350 and 379-382):
  typeof tle[0] === "string" && tle[0].length > 2 ? tle[0].slice(2) : "Unknown". -/
def satNameOf (t : RawTLE) : String :=
  match t.l0 with
  | some s => if 2 < s.length then s.drop 2 else "Unknown"
  | none => "Unknown"

/-- Catalog identifier (boot, line 383):
  tle[2].length > 8 ? tle[2].slice(2, 7) : "Unknown". -/
def noradOf (l2 : String) : String :=
  if 8 < l2.length then (l2.drop 2).take 5 else "Unknown"

/-- One successfully parsed element kept by the filter in boot. -/
structure ParsedTLE (α : Type) where
  elements : α
  l0 : Option String
  l1 : String
  l2 : String
deriving DecidableEq

/-- Embedding of the per-element branch of boot (lines 345-362): both data
lines must be strings and the elements derivation must succeed; otherwise
the element yields nothing and is dropped by the filter.  `fromTle` models
the external WasmElements.from_tle, with `none` standing for a thrown
derivation error. -/
def deriveElement {α : Type} (fromTle : String → String → String → Option α)
    (t : RawTLE) : Option (ParsedTLE α) :=
  match t.l1, t.l2 with
  | some l1, some l2 =>
    match fromTle (satNameOf t) l1 l2 with
    | some e => some { elements := e, l0 := t.l0, l1 := l1, l2 := l2 }
    | none => none
  | _, _ => none

/-- The filtered sequence `parsed` of boot (lines 345-365). -/
def parsedOf {α : Type} (fromTle : String → String → String → Option α)
    (tles : List RawTLE) : List (ParsedTLE α) :=
  tles.filterMap (deriveElement fromTle)

/-- Per-satellite metadata (SatMetadata of the source, with the reference
epoch as rational milliseconds since the Unix epoch). -/
structure SatMetadata where
  satName : String
  noradID : String
  epochJulian : ℚ
  idx : Nat
deriving DecidableEq

/-- Metadata entry built by the forEach of boot (lines 378-404) for the
parsed element at position i of the filtered sequence; the mutable idx
counter starts at 0 and increments once per kept element, so it equals that
position.  epochStr := tle[1].substring(18, 32). -/
def metaOfParsed {α : Type} (p : ParsedTLE α) (i : Nat) : SatMetadata :=
  { satName := satNameOf { l0 := p.l0, l1 := some p.l1, l2 := some p.l2 }
    noradID := noradOf p.l2
    epochJulian := tleEpochToJulian ((p.l1.drop 18).take 14)
    idx := i }

/-- The metadata array assembled by boot, in filtered order. -/
def bootMetadata {α : Type} (fromTle : String → String → String → Option α)
    (tles : List RawTLE) : List SatMetadata :=
  (parsedOf fromTle tles).enum.map (fun pr => metaOfParsed pr.2 pr.1)

/-- The constants derived from the filtered batch (boot, lines 367-370);
`fromElements` models WasmConstants.from_elements. -/
def bootConstants {α β : Type} (fromTle : String → String → String → Option α)
    (fromElements : α → β) (tles : List RawTLE) : List β :=
  (parsedOf fromTle tles).map (fun p => fromElements p.elements)

/-- One invocation of a backend primitive performed during boot. -/
inductive BackendCall (γ : Type) where
  | registerSet (batch : List γ)
deriving DecidableEq

/-- The complete sequence of Propagation Backend invocations performed by
boot (lines 373-374): the constants are mapped to GPU constants (`toGpu`
models WasmGpuConsts.from_constants) and register_const_set is invoked
exactly once, on the whole mapped batch, outside any loop. -/
def bootBackendCalls {α β γ : Type} (fromTle : String → String → String → Option α)
    (fromElements : α → β) (toGpu : β → γ) (tles : List RawTLE) :
    List (BackendCall γ) :=
  [BackendCall.registerSet ((bootConstants fromTle fromElements tles).map toGpu)]

/-! ## Propagation loop and lifecycle coordinator (small-step system)

The mutable refs of the component become fields of an explicit state
record; `started`, `released` and `logged` are ghost counters recording,
respectively, how many backend propagate calls have begun, how many times
unregister_const_set has been invoked, and how many failures were logged. -/

structure LoopState where
  /-- isComponentAliveRef.current -/
  alive : Bool
  /-- gpuPropagatorRef.current is non-null -/
  propInit : Bool
  /-- registeredConstSetIdRef.current -/
  handle : Option Nat
  /-- pointsMetadataRef.current.length -/
  metaLen : Nat
  /-- inflightRef.current -/
  inflight : Nat
  /-- number of scheduled (not yet fired) propagateLoop callbacks -/
  pending : Nat
  /-- a backend propagate call is outstanding (awaited, unresolved) -/
  outstanding : Bool
  /-- ghost: backend propagate calls started so far -/
  started : Nat
  /-- ghost: unregister_const_set invocations so far -/
  released : Nat
  /-- a tryUnregister invocation is scheduled or running -/
  pendingUnreg : Bool
  /-- ghost: failures logged via console.error so far -/
  logged : Nat
  /-- targetPositionsRef.current -/
  target : List PosBuf
deriving DecidableEq

/-- The synchronous prefix of one `propagateLoop` invocation
(src/unnamed/part_000, lines 421-439), up to and including the decision to
start a backend call.  Guard order is that of the source:
liveness flag, propagator or handle missing, empty metadata, in-flight
defer (which reschedules), then the in-flight increment and the call. -/
def tickBody (s : LoopState) : LoopState :=
  if s.alive = false then s
  else if s.propInit = false ∨ s.handle = none then s
  else if s.metaLen = 0 then s
  else if s.inflight ≠ 0 then { s with pending := s.pending + 1 }
  else { s with inflight := s.inflight + 1, outstanding := true,
                started := s.started + 1 }

/-- Resolution of the outstanding backend call (lines 450-469).  `some flat`
is a successful result (target buffer updated, km converted to m); `none`
is a rejection (logged, target untouched).  The finally block decrements
the in-flight counter and schedules the next tick in both cases. -/
def resolveBody (s : LoopState) (res : Option (List ℚ)) : LoopState :=
  let s1 := match res with
    | some flat => { s with target := writeTarget s.target flat }
    | none => { s with logged := s.logged + 1 }
  { s1 with inflight := s1.inflight - 1, outstanding := false,
            pending := s1.pending + 1 }

/-- The cleanup entry (lines 550-557): the liveness flag is cleared first;
a tryUnregister run is started only when the propagator exists and the
handle is present, otherwise teardown is a no-op. -/
def shutdownBody (s : LoopState) : LoopState :=
  if s.propInit = true ∧ s.handle ≠ none then
    { s with alive := false, pendingUnreg := true }
  else
    { s with alive := false }

/-- One `tryUnregister` invocation (lines 558-572).  When the in-flight
counter is zero: unregister_const_set is invoked (`ok = false` models a
throw, which is logged), and the finally block clears the stored handle
regardless, with no retry.  When the counter is non-zero: the state is
unchanged and the invocation stays scheduled (setTimeout retry). -/
def unregBody (s : LoopState) (ok : Bool) : LoopState :=
  if s.inflight = 0 then
    { s with released := s.released + 1,
             logged := if ok then s.logged else s.logged + 1,
             handle := none,
             pendingUnreg := false }
  else s

/-- Small-step transition relation of the cooperative scheduler: a
scheduled propagation tick fires, the outstanding backend call resolves
(successfully or not), the component is torn down, or a scheduled
tryUnregister invocation runs. -/
inductive Step : LoopState → LoopState → Prop
  | tick (s : LoopState) (h : 0 < s.pending) :
      Step s (tickBody { s with pending := s.pending - 1 })
  | resolve (s : LoopState) (res : Option (List ℚ)) (h : s.outstanding = true) :
      Step s (resolveBody s res)
  | shutdown (s : LoopState) (h : s.alive = true) :
      Step s (shutdownBody s)
  | unreg (s : LoopState) (ok : Bool) (h : s.pendingUnreg = true) :
      Step s (unregBody s ok)

/-- Reachability along the step relation. -/
abbrev Reachable : LoopState → LoopState → Prop := Relation.ReflTransGen Step

/-- States in which the pipeline may start: no call outstanding or started,
nothing released, teardown not yet requested. -/
abbrev IsInit (s : LoopState) : Prop :=
  s.inflight = 0 ∧ s.outstanding = false ∧ s.started = 0 ∧ s.released = 0
  ∧ s.pendingUnreg = false ∧ s.alive = true

/-- The state right after a successful boot: handle registered, one
propagateLoop callback kicked via requestAnimationFrame (line 543). -/
def initState (cid n : Nat) (tgt0 : List PosBuf) : LoopState :=
  { alive := true, propInit := true, handle := some cid, metaLen := n,
    inflight := 0, pending := 1, outstanding := false, started := 0,
    released := 0, pendingUnreg := false, logged := 0, target := tgt0 }

/-- The inductive invariant of the pipeline: the in-flight counter mirrors
the outstanding flag, at most one release ever happens, and a scheduled
release implies teardown was requested and nothing was released yet. -/
abbrev Inv (s : LoopState) : Prop :=
  s.inflight = (if s.outstanding then 1 else 0)
  ∧ s.released ≤ 1
  ∧ (s.pendingUnreg = true → s.released = 0 ∧ s.alive = false)
  ∧ (s.alive = true → s.released = 0 ∧ s.pendingUnreg = false)

/-! ## Render consumption step -/

/-- State touched by the `animate` pre-render listener (lines 473-539).
Instants and matrices are abstracted as rationals; `collectionMatrix` is
the single modelMatrix field of the whole point collection (there is no
per-point matrix).  `recomputes` is a ghost counter of transform
recomputations. -/
structure RenderState where
  /-- viewer.clock.currentTime -/
  currentTime : ℚ
  /-- viewer.clock.startTime -/
  startTime : ℚ
  /-- viewer.clock.stopTime -/
  stopTime : ℚ
  /-- lastJDateRef.current -/
  lastJDate : Option ℚ
  /-- modelMatrixRef.current -/
  modelMatrix : Option ℚ
  /-- pointsCollectionRef.current.modelMatrix (one matrix for the whole collection) -/
  collectionMatrix : Option ℚ
  /-- ghost: transform recomputations so far -/
  recomputes : Nat
  /-- currentPositionsRef.current -/
  curr : List PosBuf
  /-- targetPositionsRef.current -/
  tgt : List PosBuf
  /-- positions of the renderer point primitives -/
  pts : List PosBuf
deriving DecidableEq

/-- timeLimit computed at boot (lines 415-418): the signed distance from
start to stop bound (JulianDate.compare of the external library, modeled
as subtraction of instants). -/
def timeLimitOf (s : RenderState) : ℚ := s.stopTime - s.startTime

/-- Per-index copy dst[i] := src[i] for i below m, keeping later entries. -/
def copyIntoAux (src : List PosBuf) : Nat → Nat → List PosBuf → List PosBuf
  | _, _, [] => []
  | i, m, p :: rest =>
      (if i < m then src.getD i p else p) :: copyIntoAux src (i + 1) m rest

def copyInto (dst src : List PosBuf) (m : Nat) : List PosBuf :=
  copyIntoAux src 0 m dst

/-- The allocation-free position hand-off (lines 521-538): for every index
below pts.length, target is copied into current and then into the
pre-allocated position object assigned to the point primitive. -/
def movePoints (s : RenderState) : RenderState :=
  { s with curr := copyInto s.curr s.tgt s.pts.length,
           pts := copyInto s.pts s.tgt s.pts.length }

/-- The rate-limited transform recompute (lines 494-519).  `teme` and
`icrf` model the two external frame computations (returning none when the
frame data is unavailable at the instant); `fromRot` models
Matrix4.fromRotationTranslation.  A recompute happens only when the
simulated time moved by more than 1 second since the last one, and on
success the single collection-wide matrix is replaced. -/
def updateTransform (teme icrf : ℚ → Option ℚ) (fromRot : ℚ → ℚ)
    (s : RenderState) : RenderState :=
  let last : ℚ := match s.lastJDate with
    | none => s.currentTime
    | some t => t
  let s1 := { s with lastJDate := some last }
  if 1 < |s1.currentTime - last| then
    let s2 := { s1 with lastJDate := some s1.currentTime,
                        recomputes := s1.recomputes + 1 }
    match teme s2.currentTime with
    | some r =>
        { s2 with modelMatrix := some (fromRot r),
                  collectionMatrix := some (fromRot r) }
    | none =>
        match icrf s2.currentTime with
        | some r =>
            { s2 with modelMatrix := some (fromRot r),
                      collectionMatrix := some (fromRot r) }
        | none => s2
  else s1

/-- One `animate` invocation after initialization (lines 473-539): the
wraparound check resets the simulated clock and skips the frame; otherwise
the transform is (possibly) recomputed and the positions are handed off. -/
def animate (teme icrf : ℚ → Option ℚ) (fromRot : ℚ → ℚ) (timeLimit : ℚ)
    (s : RenderState) : RenderState :=
  if timeLimit < |s.currentTime - s.stopTime| then
    { s with currentTime := s.startTime }
  else
    movePoints (updateTransform teme icrf fromRot s)

/-! ## Concrete inputs used by witnesses -/

/-- Concrete feed for the C5 witness: three raw triplets, the middle one
malformed (its first data line is not a string). -/
def wTLEgood0 : RawTLE :=
  { l0 := some "0 ALPHA", l1 := some "1 A-LINE-ONE", l2 := some "2 12345X-LINE" }

def wTLEbad : RawTLE :=
  { l0 := some "0 BETA", l1 := none, l2 := some "2 99999" }

def wTLEgood1 : RawTLE :=
  { l0 := none, l1 := some "1 B-LINE-ONE", l2 := some "2 B" }

def wFeed : List RawTLE := [wTLEgood0, wTLEbad, wTLEgood1]

/-- Concrete derivation function for the C5 witness. -/
def wFromTle : String → String → String → Option Nat :=
  fun _ l1 _ => if l1.length = 0 then none else some l1.length

/-- Concrete booted state used by the state-machine witnesses. -/
def wInit : LoopState := initState 7 2 [⟨0, 0, 0⟩, ⟨0, 0, 0⟩]

/-- The state after the first tick fires from `wInit`: one backend call
outstanding. -/
def wInFlight : LoopState := tickBody { wInit with pending := wInit.pending - 1 }

/-- Teardown requested while the call of `wInFlight` is still outstanding. -/
def wShut : LoopState := shutdownBody wInFlight

/-- The outstanding call of `wShut` has resolved (with a failure); the
in-flight counter is back to 0 and the scheduled tryUnregister may run. -/
def wShutIdle : LoopState := resolveBody wShut none

/-- A booted state whose metadata array is empty (no surviving elements). -/
def wNoMeta : LoopState := initState 3 0 []

/-- Render state far past the stop bound (for the wraparound witness):
span is 3, distance from stop is 97. -/
def wRender : RenderState :=
  { currentTime := 100, startTime := 0, stopTime := 3, lastJDate := none,
    modelMatrix := none, collectionMatrix := none, recomputes := 0,
    curr := [⟨0, 0, 0⟩], tgt := [⟨1, 2, 3⟩], pts := [⟨0, 0, 0⟩] }

/-- Render state inside the playback window with a recorded last-recompute
instant 10 seconds in the past (for the rate-limit witness). -/
def wRender2 : RenderState :=
  { currentTime := 10, startTime := 0, stopTime := 10, lastJDate := some 0,
    modelMatrix := some 1, collectionMatrix := some 1, recomputes := 4,
    curr := [⟨0, 0, 0⟩], tgt := [⟨1, 2, 3⟩], pts := [⟨0, 0, 0⟩] }

/-! ## Helper lemmas: target-buffer write -/

theorem writeTargetAux_length (n : Nat) (flat : List ℚ) :
    ∀ (tgt : List PosBuf) (i : Nat), (writeTargetAux n flat i tgt).length = tgt.length := by
  intro tgt
  induction tgt with
  | nil => intro i; rfl
  | cons p rest ih => intro i; simp [writeTargetAux, ih]

theorem writeTarget_length (tgt : List PosBuf) (flat : List ℚ) :
    (writeTarget tgt flat).length = tgt.length :=
  writeTargetAux_length _ _ _ _

theorem writeTargetAux_getD (n : Nat) (flat : List ℚ) :
    ∀ (tgt : List PosBuf) (i j : Nat), j < tgt.length →
      (writeTargetAux n flat i tgt).getD j default
        = (if i + j < n then sampleAt flat (i + j) else tgt.getD j default) := by
  intro tgt
  induction tgt with
  | nil => intro i j h; simp at h
  | cons p rest ih =>
    intro i j h
    cases j with
    | zero => simp [writeTargetAux]
    | succ k =>
      have hk : k < rest.length := by simpa using Nat.lt_of_succ_lt_succ h
      have := ih (i + 1) k hk
      simp only [writeTargetAux, List.getD_cons_succ]
      rw [this]
      have harith : i + 1 + k = i + (k + 1) := by omega
      rw [harith]

theorem writeTarget_getD (tgt : List PosBuf) (flat : List ℚ) (j : Nat)
    (h : j < tgt.length) :
    (writeTarget tgt flat).getD j default
      = (if j < flat.length / 6 then sampleAt flat j else tgt.getD j default) := by
  have := writeTargetAux_getD (flat.length / 6) flat tgt 0 j h
  simpa using this

/-! ## Helper lemmas: the pipeline invariant -/

theorem isInit_inv {s : LoopState} (h : IsInit s) : Inv s := by
  obtain ⟨h1, h2, h3, h4, h5, h6⟩ := h
  refine ⟨?_, ?_, ?_, ?_⟩ <;> simp_all

theorem inv_step {s s' : LoopState} (hinv : Inv s) (hstep : Step s s') : Inv s' := by
  obtain ⟨h1, h2, h3, h4⟩ := hinv
  cases hstep with
  | tick hp =>
      obtain ⟨al, pi, hd, ml, inf, pen, out, st, rel, pu, lg, tg⟩ := s
      simp only [Inv, tickBody] at h1 h2 h3 h4 ⊢
      split_ifs <;> cases out <;> simp_all
  | resolve res hout =>
      obtain ⟨al, pi, hd, ml, inf, pen, out, st, rel, pu, lg, tg⟩ := s
      simp only at hout
      subst hout
      cases res <;> simp_all [Inv, resolveBody]
  | shutdown halive =>
      obtain ⟨al, pi, hd, ml, inf, pen, out, st, rel, pu, lg, tg⟩ := s
      simp only at halive
      subst halive
      simp only [Inv, shutdownBody] at h1 h2 h3 h4 ⊢
      split_ifs <;> cases out <;> simp_all
  | unreg ok hpend =>
      obtain ⟨al, pi, hd, ml, inf, pen, out, st, rel, pu, lg, tg⟩ := s
      simp only at hpend
      subst hpend
      simp only [Inv, unregBody] at h1 h2 h3 h4 ⊢
      split_ifs <;> cases out <;> simp_all

theorem reachable_inv {s0 s : LoopState} (h0 : IsInit s0) (hr : Reachable s0 s) :
    Inv s := by
  induction hr with
  | refl => exact isInit_inv h0
  | tail _ hstep ih => exact inv_step ih hstep

/-- After teardown is requested the liveness flag stays false and no new
backend call ever starts. -/
theorem step_dead {s s' : LoopState} (hstep : Step s s') (hdead : s.alive = false) :
    s'.alive = false ∧ s'.started = s.started := by
  cases hstep with
  | tick hp =>
      obtain ⟨al, pi, hd, ml, inf, pen, out, st, rel, pu, lg, tg⟩ := s
      simp only at hdead
      subst hdead
      simp [tickBody]
  | resolve res hout =>
      obtain ⟨al, pi, hd, ml, inf, pen, out, st, rel, pu, lg, tg⟩ := s
      cases res <;> simp_all [resolveBody]
  | shutdown halive => simp_all
  | unreg ok hpend =>
      obtain ⟨al, pi, hd, ml, inf, pen, out, st, rel, pu, lg, tg⟩ := s
      simp only [unregBody]
      split_ifs <;> simp_all

theorem reachable_dead {s s' : LoopState} (hr : Reachable s s')
    (hdead : s.alive = false) : s'.alive = false ∧ s'.started = s.started := by
  induction hr with
  | refl => exact ⟨hdead, rfl⟩
  | tail _ hstep ih =>
      obtain ⟨ha, hs⟩ := ih
      obtain ⟨ha2, hs2⟩ := step_dead hstep ha
      exact ⟨ha2, hs2.trans hs⟩

/-- Once teardown completed with no tryUnregister scheduled, the release
count never changes again. -/
theorem step_frozen {s s' : LoopState} (hstep : Step s s') (hdead : s.alive = false)
    (hnp : s.pendingUnreg = false) :
    s'.alive = false ∧ s'.pendingUnreg = false ∧ s'.released = s.released := by
  cases hstep with
  | tick hp =>
      obtain ⟨al, pi, hd, ml, inf, pen, out, st, rel, pu, lg, tg⟩ := s
      simp only at hdead hnp
      subst hdead
      subst hnp
      simp [tickBody]
  | resolve res hout =>
      obtain ⟨al, pi, hd, ml, inf, pen, out, st, rel, pu, lg, tg⟩ := s
      cases res <;> simp_all [resolveBody]
  | shutdown halive => simp_all
  | unreg ok hpend => simp_all

theorem reachable_frozen {s s' : LoopState} (hr : Reachable s s')
    (hdead : s.alive = false) (hnp : s.pendingUnreg = false) :
    s'.alive = false ∧ s'.pendingUnreg = false ∧ s'.released = s.released := by
  induction hr with
  | refl => exact ⟨hdead, hnp, rfl⟩
  | tail _ hstep ih =>
      obtain ⟨ha, hp, hrel⟩ := ih
      obtain ⟨ha2, hp2, hrel2⟩ := step_frozen hstep ha hp
      exact ⟨ha2, hp2, hrel2.trans hrel⟩

/-- With no tick scheduled and no call outstanding, the loop is halted:
no step can schedule a tick or start a backend call. -/
theorem step_halted {s s' : LoopState} (hstep : Step s s') (hp : s.pending = 0)
    (ho : s.outstanding = false) :
    s'.pending = 0 ∧ s'.outstanding = false ∧ s'.started = s.started := by
  cases hstep with
  | tick htick => omega
  | resolve res hout => simp_all
  | shutdown halive =>
      obtain ⟨al, pi, hd, ml, inf, pen, out, st, rel, pu, lg, tg⟩ := s
      simp only [shutdownBody]
      split_ifs <;> simp_all
  | unreg ok hpend =>
      obtain ⟨al, pi, hd, ml, inf, pen, out, st, rel, pu, lg, tg⟩ := s
      simp only [unregBody]
      split_ifs <;> simp_all

theorem reachable_halted {s s' : LoopState} (hr : Reachable s s')
    (hp : s.pending = 0) (ho : s.outstanding = false) :
    s'.pending = 0 ∧ s'.outstanding = false ∧ s'.started = s.started := by
  induction hr with
  | refl => exact ⟨hp, ho, rfl⟩
  | tail _ hstep ih =>
      obtain ⟨h1, h2, h3⟩ := ih
      obtain ⟨g1, g2, g3⟩ := step_halted hstep h1 h2
      exact ⟨g1, g2, g3.trans h3⟩

/-- A tick firing while the loop is live, registered, non-empty and
in-flight restores its own reschedule: the state is unchanged and in
particular no backend call starts. -/
theorem tick_defer {s : LoopState} (ha : s.alive = true) (hpi : s.propInit = true)
    (hh : s.handle ≠ none) (hm : s.metaLen ≠ 0) (hi : s.inflight ≠ 0)
    (hp : 0 < s.pending) :
    tickBody { s with pending := s.pending - 1 } = s := by
  obtain ⟨al, pi, hd, ml, inf, pen, out, st, rel, pu, lg, tg⟩ := s
  simp only at ha hpi hh hm hi hp
  subst ha
  subst hpi
  simp [tickBody, hh, hm, hi]
  omega

theorem tickBody_started {t : LoopState} (hi : t.inflight ≠ 0) :
    (tickBody t).started = t.started := by
  unfold tickBody
  split_ifs <;> simp_all

theorem resolveBody_started (s : LoopState) (res : Option (List ℚ)) :
    (resolveBody s res).started = s.started := by
  cases res <;> rfl

theorem shutdownBody_started (s : LoopState) :
    (shutdownBody s).started = s.started := by
  unfold shutdownBody
  split_ifs <;> rfl

theorem unregBody_started (s : LoopState) (ok : Bool) :
    (unregBody s ok).started = s.started := by
  unfold unregBody
  split_ifs <;> rfl

theorem tickBody_released (t : LoopState) :
    (tickBody t).released = t.released := by
  unfold tickBody
  split_ifs <;> rfl

theorem resolveBody_released (s : LoopState) (res : Option (List ℚ)) :
    (resolveBody s res).released = s.released := by
  cases res <;> rfl

theorem shutdownBody_released (s : LoopState) :
    (shutdownBody s).released = s.released := by
  unfold shutdownBody
  split_ifs <;> rfl

/-! ## Claim theorems -/

/-- C1: The in-flight counter is always 0 or 1: it is incremented
immediately before each backend propagate call (it equals 1 exactly while a
call is outstanding) and decremented immediately after the call completes
or fails, and any propagation tick that fires while a call is outstanding
(counter non-zero) reschedules itself without starting a second backend
call, so for every reachable state of the propagation loop no two backend
calls for the registered set overlap. -/
theorem inflight_invariant (s0 s : LoopState) (h0 : IsInit s0)
    (hr : Reachable s0 s) :
    (s.inflight = 0 ∨ s.inflight = 1)
    ∧ (s.outstanding = true → s.inflight = 1)
    ∧ (∀ s', Step s s' → s.inflight ≠ 0 → s'.started = s.started)
    ∧ (s.alive = true → s.propInit = true → s.handle ≠ none → s.metaLen ≠ 0 →
        s.inflight ≠ 0 → 0 < s.pending →
        tickBody { s with pending := s.pending - 1 } = s) := by
  obtain ⟨h1, h2, h3, h4⟩ := reachable_inv h0 hr
  refine ⟨?_, ?_, ?_, fun ha hpi hh hm hi hp => tick_defer ha hpi hh hm hi hp⟩
  · by_cases ho : s.outstanding = true <;> simp [ho] at h1 <;> omega
  · intro ho
    simp [ho] at h1
    exact h1
  · intro s' hstep hi
    cases hstep with
    | tick hp =>
        have : ({ s with pending := s.pending - 1 } : LoopState).inflight ≠ 0 := hi
        rw [tickBody_started this]
    | resolve res hout => exact resolveBody_started s res
    | shutdown halive => exact shutdownBody_started s
    | unreg ok hpend => exact unregBody_started s ok

/-- Witness for C1 at the concrete state with one call outstanding,
reached from the booted state by the first tick. -/
theorem inflight_invariant_witness :
    (wInFlight.inflight = 0 ∨ wInFlight.inflight = 1)
    ∧ (wInFlight.outstanding = true → wInFlight.inflight = 1)
    ∧ (∀ s', Step wInFlight s' → wInFlight.inflight ≠ 0 →
        s'.started = wInFlight.started)
    ∧ (wInFlight.alive = true → wInFlight.propInit = true →
        wInFlight.handle ≠ none → wInFlight.metaLen ≠ 0 →
        wInFlight.inflight ≠ 0 → 0 < wInFlight.pending →
        tickBody { wInFlight with pending := wInFlight.pending - 1 } = wInFlight) :=
  inflight_invariant wInit wInFlight (by decide)
    (Relation.ReflTransGen.single (Step.tick wInit (by decide)))

/-- C2: After shutdown is requested (the liveness flag is set false), no new
backend propagate call ever begins, and the release function
(unregister_const_set) is invoked at most once and only from a state whose
in-flight counter is 0: while the counter is non-zero the coordinator
leaves the state unchanged with the retry still scheduled instead of
releasing. -/
theorem shutdown_release_protocol (s0 s : LoopState) (h0 : IsInit s0)
    (hr : Reachable s0 s) :
    s.released ≤ 1
    ∧ (s.alive = false → ∀ s', Reachable s s' → s'.started = s.started)
    ∧ (∀ s', Step s s' → s.released < s'.released →
        s.inflight = 0 ∧ s.pendingUnreg = true ∧ s.released = 0
          ∧ s'.released = s.released + 1)
    ∧ (s.pendingUnreg = true → s.inflight ≠ 0 → ∀ ok, unregBody s ok = s) := by
  obtain ⟨h1, h2, h3, h4⟩ := reachable_inv h0 hr
  refine ⟨h2, ?_, ?_, ?_⟩
  · intro hdead s' hrs
    exact (reachable_dead hrs hdead).2
  · intro s' hstep hlt
    cases hstep with
    | tick hp =>
        rw [tickBody_released] at hlt
        exact absurd hlt (lt_irrefl s.released)
    | resolve res hout =>
        rw [resolveBody_released] at hlt
        omega
    | shutdown halive =>
        rw [shutdownBody_released] at hlt
        omega
    | unreg ok hpend =>
        unfold unregBody at hlt ⊢
        by_cases hi : s.inflight = 0
        · rw [if_pos hi] at hlt ⊢
          exact ⟨hi, hpend, (h3 hpend).1, by simp⟩
        · rw [if_neg hi] at hlt
          omega
  · intro hpend hi ok
    unfold unregBody
    rw [if_neg hi]

/-- Witness for C2 at the state where teardown was requested mid-call:
the retry clause is live (in-flight counter is 1). -/
theorem shutdown_release_protocol_witness :
    wShut.released ≤ 1
    ∧ (wShut.alive = false → ∀ s', Reachable wShut s' → s'.started = wShut.started)
    ∧ (∀ s', Step wShut s' → wShut.released < s'.released →
        wShut.inflight = 0 ∧ wShut.pendingUnreg = true ∧ wShut.released = 0
          ∧ s'.released = wShut.released + 1)
    ∧ (wShut.pendingUnreg = true → wShut.inflight ≠ 0 → ∀ ok, unregBody wShut ok = wShut) :=
  shutdown_release_protocol wInit wShut (by decide)
    (Relation.ReflTransGen.tail
      (Relation.ReflTransGen.single (Step.tick wInit (by decide)))
      (Step.shutdown wInFlight (by decide)))

/-- C4: When a backend propagate call fails, the failure is logged, the
Target buffer is left exactly at its previous value, the in-flight counter
is decremented, and the propagation loop schedules its next tick regardless
of the failure; the resolution is an ordinary step of the system, never an
escalated error. -/
theorem propagate_failure_recovery (s : LoopState) (hout : s.outstanding = true) :
    resolveBody s none
      = { s with logged := s.logged + 1, inflight := s.inflight - 1,
                 outstanding := false, pending := s.pending + 1 }
    ∧ (resolveBody s none).target = s.target
    ∧ (resolveBody s none).logged = s.logged + 1
    ∧ (resolveBody s none).inflight = s.inflight - 1
    ∧ (resolveBody s none).pending = s.pending + 1
    ∧ Step s (resolveBody s none) :=
  ⟨rfl, rfl, rfl, rfl, rfl, Step.resolve s none hout⟩

/-- Witness for C4 at the concrete in-flight state. -/
theorem propagate_failure_recovery_witness :
    resolveBody wInFlight none
      = { wInFlight with logged := wInFlight.logged + 1,
                         inflight := wInFlight.inflight - 1,
                         outstanding := false, pending := wInFlight.pending + 1 }
    ∧ (resolveBody wInFlight none).target = wInFlight.target
    ∧ (resolveBody wInFlight none).logged = wInFlight.logged + 1
    ∧ (resolveBody wInFlight none).inflight = wInFlight.inflight - 1
    ∧ (resolveBody wInFlight none).pending = wInFlight.pending + 1
    ∧ Step wInFlight (resolveBody wInFlight none) :=
  propagate_failure_recovery wInFlight (by decide)

/-- C9: Invoking shutdown before registration ever completed (the handle is
absent) performs no release call at all, then or ever after; and when the
release call itself fails during teardown the failure is logged, the stored
handle is cleared regardless, and the release is never retried and never
escalated (the release count never changes again). -/
theorem teardown_release_safety (s : LoopState) (hinv : Inv s) :
    (s.alive = true → s.handle = none →
        shutdownBody s = { s with alive := false }
        ∧ ∀ s', Reachable (shutdownBody s) s' → s'.released = s.released)
    ∧ (s.pendingUnreg = true → s.inflight = 0 →
        (unregBody s false).released = s.released + 1
        ∧ (unregBody s false).logged = s.logged + 1
        ∧ (unregBody s false).handle = none
        ∧ (unregBody s false).pendingUnreg = false
        ∧ ∀ s', Reachable (unregBody s false) s' →
            s'.released = (unregBody s false).released) := by
  obtain ⟨h1, h2, h3, h4⟩ := hinv
  constructor
  · intro halive hnone
    have hsd : shutdownBody s = { s with alive := false } := by
      unfold shutdownBody
      rw [if_neg]
      simp [hnone]
    refine ⟨hsd, ?_⟩
    intro s' hrs
    rw [hsd] at hrs
    have hfr := reachable_frozen hrs rfl (by simp [(h4 halive).2])
    exact hfr.2.2
  · intro hpend hi
    have hu : unregBody s false
        = { s with released := s.released + 1, logged := s.logged + 1,
                   handle := none, pendingUnreg := false } := by
      unfold unregBody
      rw [if_pos hi]
      simp
    refine ⟨by rw [hu], by rw [hu], by rw [hu], by rw [hu], ?_⟩
    intro s' hrs
    rw [hu] at hrs ⊢
    have hfr := reachable_frozen hrs (by simp [(h3 hpend).2]) (by simp)
    exact hfr.2.2

/-- Witness for C9 at the concrete idle teardown state (call resolved,
release pending, counter 0). -/
theorem teardown_release_safety_witness :
    (wShutIdle.alive = true → wShutIdle.handle = none →
        shutdownBody wShutIdle = { wShutIdle with alive := false }
        ∧ ∀ s', Reachable (shutdownBody wShutIdle) s' → s'.released = wShutIdle.released)
    ∧ (wShutIdle.pendingUnreg = true → wShutIdle.inflight = 0 →
        (unregBody wShutIdle false).released = wShutIdle.released + 1
        ∧ (unregBody wShutIdle false).logged = wShutIdle.logged + 1
        ∧ (unregBody wShutIdle false).handle = none
        ∧ (unregBody wShutIdle false).pendingUnreg = false
        ∧ ∀ s', Reachable (unregBody wShutIdle false) s' →
            s'.released = (unregBody wShutIdle false).released) :=
  teardown_release_safety wShutIdle (by decide)

/-- C10: If a propagation tick fires when the backend propagator is
uninitialized, the registered set handle is null, or the metadata sequence
is empty, the tick returns without calling the backend and without
scheduling any further tick, and with no other tick scheduled and no call
outstanding the loop stops permanently (no later state has a scheduled
tick or more started calls); in contrast, in the in-flight case the tick
reschedules itself. -/
theorem tick_guard_stop (s : LoopState) (hp : 0 < s.pending)
    (hc : s.propInit = false ∨ s.handle = none ∨ s.metaLen = 0) :
    Step s (tickBody { s with pending := s.pending - 1 })
    ∧ tickBody { s with pending := s.pending - 1 } = { s with pending := s.pending - 1 }
    ∧ (s.pending = 1 → s.outstanding = false →
        ∀ s', Reachable (tickBody { s with pending := s.pending - 1 }) s' →
          s'.pending = 0 ∧ s'.outstanding = false ∧ s'.started = s.started)
    ∧ (∀ t : LoopState, t.alive = true → t.propInit = true → t.handle ≠ none →
        t.metaLen ≠ 0 → t.inflight ≠ 0 → 0 < t.pending →
        tickBody { t with pending := t.pending - 1 } = t) := by
  have h2 : tickBody { s with pending := s.pending - 1 }
      = { s with pending := s.pending - 1 } := by
    obtain ⟨al, pi, hd, ml, inf, pen, out, st, rel, pu, lg, tg⟩ := s
    simp only at hc
    unfold tickBody
    split_ifs <;> simp_all
  refine ⟨Step.tick s hp, h2, ?_, fun t ha hpi hh hm hi hp2 => tick_defer ha hpi hh hm hi hp2⟩
  intro hp1 ho s' hrs
  rw [h2] at hrs
  have := reachable_halted hrs (by simp [hp1]) (by simp [ho])
  simpa using this

/-- Witness for C10 at the booted state with empty metadata. -/
theorem tick_guard_stop_witness :
    Step wNoMeta (tickBody { wNoMeta with pending := wNoMeta.pending - 1 })
    ∧ tickBody { wNoMeta with pending := wNoMeta.pending - 1 }
        = { wNoMeta with pending := wNoMeta.pending - 1 }
    ∧ (wNoMeta.pending = 1 → wNoMeta.outstanding = false →
        ∀ s', Reachable (tickBody { wNoMeta with pending := wNoMeta.pending - 1 }) s' →
          s'.pending = 0 ∧ s'.outstanding = false ∧ s'.started = wNoMeta.started)
    ∧ (∀ t : LoopState, t.alive = true → t.propInit = true → t.handle ≠ none →
        t.metaLen ≠ 0 → t.inflight ≠ 0 → 0 < t.pending →
        tickBody { t with pending := t.pending - 1 } = t) :=
  tick_guard_stop wNoMeta (by decide) (by decide)

/-- C5: Registration drops every raw element whose constants cannot be
derived and proceeds with the remainder (never failing the whole batch for
one bad element), assigns each surviving element a metadata index equal to
its position in the filtered sequence (indices 0..N-1, dense, in filtered
order rather than original input order), and calls the backend registration
primitive exactly once for the whole filtered batch, never per element. -/
theorem boot_registration {α β γ : Type}
    (fromTle : String → String → String → Option α) (fromElements : α → β)
    (toGpu : β → γ) (tles : List RawTLE) :
    (bootMetadata fromTle tles).length = (parsedOf fromTle tles).length
    ∧ (∀ i (h : i < (bootMetadata fromTle tles).length),
        (bootMetadata fromTle tles)[i].idx = i)
    ∧ (∀ t ts, deriveElement fromTle t = none →
        parsedOf fromTle (t :: ts) = parsedOf fromTle ts)
    ∧ (bootBackendCalls fromTle fromElements toGpu tles).length = 1
    ∧ bootBackendCalls fromTle fromElements toGpu tles
        = [BackendCall.registerSet ((parsedOf fromTle tles).map
            (fun p => toGpu (fromElements p.elements)))] := by
  refine ⟨?_, ?_, ?_, ?_, ?_⟩
  · simp [bootMetadata]
  · intro i h
    simp [bootMetadata, metaOfParsed]
  · intro t ts hnone
    simp [parsedOf, List.filterMap_cons, hnone]
  · rfl
  · simp [bootBackendCalls, bootConstants, List.map_map, Function.comp]

/-- Witness for C5: on the concrete feed, the element surviving at filtered
position 1 gets metadata index 1, and dropping the malformed element leaves
the rest of the batch intact. -/
theorem boot_registration_witness :
    ((bootMetadata wFromTle wFeed).get ⟨1, by decide⟩).idx = 1
    ∧ parsedOf wFromTle (wTLEbad :: [wTLEgood1]) = parsedOf wFromTle [wTLEgood1] :=
  ⟨(boot_registration wFromTle (fun n => n + 1) (fun n => n * 2) wFeed).2.1 1 (by decide),
   (boot_registration wFromTle (fun n => n + 1) (fun n => n * 2) wFeed).2.2.1
      wTLEbad [wTLEgood1] (by decide)⟩

/-- C3: Epoch decoding follows the pivot rule exactly: for every epoch string
of the form two-digit year followed by fractional day-of-year, the decoded
year is 2000 + year when the two-digit year is < 57 and 1900 + year
otherwise, and the decoded instant is (day - 1) days past January 1st of
that year at 00:00 UTC; in particular the input "24091.50000000" decodes to
the absolute instant 2024-03-31T12:00:00.000Z. -/
theorem epoch_decoding (c1 c2 : Char) (rest : List Char) (s : String)
    (hs : s.toList = c1 :: c2 :: rest) :
    tleEpochToJulian s
      = utcMs (if 10 * digitVal c1 + digitVal c2 < 57
            then 2000 + (10 * digitVal c1 + digitVal c2)
            else 1900 + (10 * digitVal c1 + digitVal c2)) 1 1 0 0 0
        + (parseFloatFixed rest - 1) * 86400000
    ∧ tleEpochToJulian "24091.50000000" = utcMs 2024 3 31 12 0 0
    ∧ utcMs 2024 3 31 12 0 0 = 1711886400000 := by
  refine ⟨?_, ?_, ?_⟩
  · show (daysFromCivil (if parseNatDigits ((s.toList).take 2) < 57
        then 2000 + parseNatDigits ((s.toList).take 2)
        else 1900 + parseNatDigits ((s.toList).take 2)) 1 1 : ℚ) * 86400000
      + (parseFloatFixed ((s.toList).drop 2) - 1) * 86400000 = _
    rw [hs]
    have htake : (c1 :: c2 :: rest).take 2 = [c1, c2] := rfl
    have hdrop : (c1 :: c2 :: rest).drop 2 = rest := rfl
    rw [htake, hdrop]
    have hpn : parseNatDigits [c1, c2] = 10 * digitVal c1 + digitVal c2 := by
      show (0 * 10 + digitVal c1) * 10 + digitVal c2 = 10 * digitVal c1 + digitVal c2
      ring
    rw [hpn]
    show _ = ((daysFromCivil _ 1 1) * 86400
        + ((0 * 3600 + 0 * 60 + 0 : Nat) : Int) : ℚ) * 1000 + _
    push_cast
    ring
  · show (daysFromCivil (if parseNatDigits (List.take 2 ("24091.50000000".toList)) < 57
        then 2000 + parseNatDigits (List.take 2 ("24091.50000000".toList))
        else 1900 + parseNatDigits (List.take 2 ("24091.50000000".toList))) 1 1 : ℚ) * 86400000
      + (parseFloatFixed (List.drop 2 ("24091.50000000".toList)) - 1) * 86400000
      = ((daysFromCivil 2024 3 31) * 86400 + ((12 * 3600 + 0 * 60 + 0 : Nat) : Int) : ℚ) * 1000
    rw [show parseNatDigits (List.take 2 ("24091.50000000".toList)) = 24 from by decide,
      show List.drop 2 ("24091.50000000".toList) = "091.50000000".toList from by decide]
    have h3 : parseFloatFixed ("091.50000000".toList)
        = (91 : ℚ) + (50000000 : ℚ) / (10 : ℚ) ^ (8 : Nat) := by
      show (parseNatDigits (("091.50000000".toList).takeWhile (fun c => c ≠ '.')) : ℚ)
          + (parseNatDigits ((("091.50000000".toList).dropWhile (fun c => c ≠ '.')).drop 1) : ℚ)
            / (10 : ℚ) ^ ((("091.50000000".toList).dropWhile (fun c => c ≠ '.')).drop 1).length
        = (91 : ℚ) + (50000000 : ℚ) / (10 : ℚ) ^ (8 : Nat)
      rw [show ("091.50000000".toList).takeWhile (fun c => c ≠ '.') = "091".toList from by decide,
        show (("091.50000000".toList).dropWhile (fun c => c ≠ '.')).drop 1
          = "50000000".toList from by decide,
        show parseNatDigits ("091".toList) = 91 from by decide,
        show parseNatDigits ("50000000".toList) = 50000000 from by decide,
        show ("50000000".toList).length = 8 from by decide]
      push_cast
      ring
    rw [h3, show daysFromCivil (if 24 < 57 then 2000 + 24 else 1900 + 24) 1 1 = 19723 from by decide,
      show daysFromCivil 2024 3 31 = 19813 from by decide]
    norm_num
  · show ((daysFromCivil 2024 3 31) * 86400 + ((12 * 3600 + 0 * 60 + 0 : Nat) : Int) : ℚ) * 1000
      = 1711886400000
    rw [show daysFromCivil 2024 3 31 = 19813 from by decide]
    norm_num

/-- Witness for C3 at the literal test vector. -/
theorem epoch_decoding_witness :
    (tleEpochToJulian "24091.50000000"
      = utcMs (if 10 * digitVal '2' + digitVal '4' < 57
            then 2000 + (10 * digitVal '2' + digitVal '4')
            else 1900 + (10 * digitVal '2' + digitVal '4')) 1 1 0 0 0
        + (parseFloatFixed ("091.50000000".toList) - 1) * 86400000)
    ∧ tleEpochToJulian "24091.50000000" = utcMs 2024 3 31 12 0 0
    ∧ utcMs 2024 3 31 12 0 0 = 1711886400000 :=
  epoch_decoding '2' '4' ("091.50000000".toList) "24091.50000000" (by decide)

/-- C6 counterexample: the claim fails when the backend returns 3 components
per satellite.  With 2 registered satellites and a flat result of two
3-component samples [1,2,3] and [4,5,6], the code divides the flat length
by 6 and strides by 6, so it updates only Target[0]; Target[1] does not
become the second sample's position multiplied by 1000 as the claim
requires for every index 0..N-1. -/
theorem target_update_three_component_cex :
    writeTarget [⟨0, 0, 0⟩, ⟨0, 0, 0⟩] [1, 2, 3, 4, 5, 6]
      ≠ [⟨1000, 2000, 3000⟩, ⟨4000, 5000, 6000⟩] := by
  intro h
  have h1 := congrArg (fun l => (List.getD l 1 default).x) h
  have h2 : (writeTarget [⟨0, 0, 0⟩, ⟨0, 0, 0⟩] [1, 2, 3, 4, 5, 6]).getD 1 default
      = (⟨0, 0, 0⟩ : PosBuf) := by
    rw [writeTarget_getD _ _ 1 (by decide)]
    norm_num
  simp only [h2] at h1
  norm_num at h1

/-- C6 (amended): On every successful backend propagate call, whose flat
result array holds one 6-component sample [x y z vx vy vz] per registered
satellite ordered identically to the metadata index, the Target buffer is
updated component-wise for every index i in 0..N-1: Target[i] x, y, z
become the i-th sample's position components multiplied by 1000
(kilometers converted to meters); the code assumes 6 components per
satellite (N = flat.length / 6, stride 6), not 3. -/
theorem target_update_six_components (tgt : List PosBuf) (flat : List ℚ)
    (h : flat.length = 6 * tgt.length) :
    (writeTarget tgt flat).length = tgt.length
    ∧ (∀ i, i < tgt.length →
        (writeTarget tgt flat).getD i default
          = ⟨flat.getD (6 * i) 0 * 1000, flat.getD (6 * i + 1) 0 * 1000,
             flat.getD (6 * i + 2) 0 * 1000⟩)
    ∧ (∀ s : LoopState, s.target = tgt →
        (resolveBody s (some flat)).target = writeTarget tgt flat) := by
  refine ⟨writeTarget_length tgt flat, ?_, ?_⟩
  · intro i hi
    rw [writeTarget_getD tgt flat i hi]
    have hdiv : flat.length / 6 = tgt.length := by omega
    rw [hdiv, if_pos hi]
    rfl
  · intro s hs
    rw [← hs]
    rfl

/-- Witness for C6 (amended) on a single satellite with one 6-component
sample. -/
theorem target_update_six_components_witness :
    (writeTarget [⟨0, 0, 0⟩] [1, 2, 3, 4, 5, 6]).length = List.length [(⟨0, 0, 0⟩ : PosBuf)]
    ∧ (∀ i, i < List.length [(⟨0, 0, 0⟩ : PosBuf)] →
        (writeTarget [⟨0, 0, 0⟩] [1, 2, 3, 4, 5, 6]).getD i default
          = ⟨List.getD [1, 2, 3, 4, 5, 6] (6 * i) 0 * 1000,
             List.getD [1, 2, 3, 4, 5, 6] (6 * i + 1) 0 * 1000,
             List.getD [1, 2, 3, 4, 5, 6] (6 * i + 2) 0 * 1000⟩)
    ∧ (∀ s : LoopState, s.target = [⟨0, 0, 0⟩] →
        (resolveBody s (some [1, 2, 3, 4, 5, 6])).target
          = writeTarget [⟨0, 0, 0⟩] [1, 2, 3, 4, 5, 6]) :=
  target_update_six_components [⟨0, 0, 0⟩] [1, 2, 3, 4, 5, 6] (by decide)

/-- C7: On each render tick, if the simulated clock's distance from the
configured stop bound exceeds the total configured start-to-stop span, the
render consumption step resets the simulated clock to the configured start
bound and returns without updating any point position or the transform that
frame. -/
theorem wraparound_reset (teme icrf : ℚ → Option ℚ) (fromRot : ℚ → ℚ)
    (s : RenderState) (h : timeLimitOf s < |s.currentTime - s.stopTime|) :
    animate teme icrf fromRot (timeLimitOf s) s = { s with currentTime := s.startTime }
    ∧ (animate teme icrf fromRot (timeLimitOf s) s).currentTime = s.startTime
    ∧ (animate teme icrf fromRot (timeLimitOf s) s).pts = s.pts
    ∧ (animate teme icrf fromRot (timeLimitOf s) s).curr = s.curr
    ∧ (animate teme icrf fromRot (timeLimitOf s) s).modelMatrix = s.modelMatrix
    ∧ (animate teme icrf fromRot (timeLimitOf s) s).collectionMatrix = s.collectionMatrix
    ∧ (animate teme icrf fromRot (timeLimitOf s) s).recomputes = s.recomputes := by
  have hm : animate teme icrf fromRot (timeLimitOf s) s
      = { s with currentTime := s.startTime } := by
    unfold animate
    rw [if_pos h]
  exact ⟨hm, by rw [hm], by rw [hm], by rw [hm], by rw [hm], by rw [hm], by rw [hm]⟩

/-- Witness for C7 at a concrete render state far past the stop bound. -/
theorem wraparound_reset_witness :
    animate (fun _ => some 5) (fun _ => none) (fun r => r + 1) (timeLimitOf wRender) wRender
        = { wRender with currentTime := wRender.startTime }
    ∧ (animate (fun _ => some 5) (fun _ => none) (fun r => r + 1) (timeLimitOf wRender)
        wRender).currentTime = wRender.startTime
    ∧ (animate (fun _ => some 5) (fun _ => none) (fun r => r + 1) (timeLimitOf wRender)
        wRender).pts = wRender.pts
    ∧ (animate (fun _ => some 5) (fun _ => none) (fun r => r + 1) (timeLimitOf wRender)
        wRender).curr = wRender.curr
    ∧ (animate (fun _ => some 5) (fun _ => none) (fun r => r + 1) (timeLimitOf wRender)
        wRender).modelMatrix = wRender.modelMatrix
    ∧ (animate (fun _ => some 5) (fun _ => none) (fun r => r + 1) (timeLimitOf wRender)
        wRender).collectionMatrix = wRender.collectionMatrix
    ∧ (animate (fun _ => some 5) (fun _ => none) (fun r => r + 1) (timeLimitOf wRender)
        wRender).recomputes = wRender.recomputes :=
  wraparound_reset (fun _ => some 5) (fun _ => none) (fun r => r + 1) wRender
    (by show (3 : ℚ) - 0 < |(100 : ℚ) - 3|; rw [show |(100 : ℚ) - 3| = 97 from by
          rw [abs_of_pos] <;> norm_num]; norm_num)

/-- C8: The coordinate-frame transform is recomputed only when the
simulated time has advanced more than 1 simulated second since the last
recompute: a render tick whose simulated-time distance from the last
recompute is at most 1 second reuses the same transform (no recompute),
and a distance over 1 second triggers exactly one recompute, whose result
is applied as the single matrix of the whole point collection (the same
one stored in the model-matrix ref), not per point. -/
theorem transform_rate_limit (teme icrf : ℚ → Option ℚ) (fromRot : ℚ → ℚ)
    (tl : ℚ) (s : RenderState) (t : ℚ) (hlast : s.lastJDate = some t)
    (hwrap : ¬ tl < |s.currentTime - s.stopTime|) :
    (|s.currentTime - t| ≤ 1 →
        (animate teme icrf fromRot tl s).modelMatrix = s.modelMatrix
        ∧ (animate teme icrf fromRot tl s).collectionMatrix = s.collectionMatrix
        ∧ (animate teme icrf fromRot tl s).recomputes = s.recomputes
        ∧ (animate teme icrf fromRot tl s).lastJDate = s.lastJDate)
    ∧ (1 < |s.currentTime - t| →
        (animate teme icrf fromRot tl s).recomputes = s.recomputes + 1
        ∧ (animate teme icrf fromRot tl s).lastJDate = some s.currentTime
        ∧ ∀ r, teme s.currentTime = some r →
            (animate teme icrf fromRot tl s).collectionMatrix = some (fromRot r)
            ∧ (animate teme icrf fromRot tl s).modelMatrix = some (fromRot r)) := by
  obtain ⟨ct, st0, sp, lj, mm, cm, rc, cu, tg, pt⟩ := s
  simp only at hlast hwrap
  subst hlast
  constructor
  · intro hle
    have h1 : ¬ 1 < |ct - t| := not_lt.mpr hle
    simp [animate, updateTransform, movePoints, hwrap, h1]
  · intro hgt
    rcases hteme : teme ct with _ | r
    · rcases hicrf : icrf ct with _ | r2
      · simp [animate, updateTransform, movePoints, hwrap, hgt, hteme, hicrf]
      · simp [animate, updateTransform, movePoints, hwrap, hgt, hteme, hicrf]
    · simp [animate, updateTransform, movePoints, hwrap, hgt, hteme]

/-- Witness for C8 at a concrete render state 10 simulated seconds past the
last recompute. -/
theorem transform_rate_limit_witness :
    (|wRender2.currentTime - 0| ≤ 1 →
        (animate (fun _ => some 2) (fun _ => none) (fun r => r * 3) 20 wRender2).modelMatrix
            = wRender2.modelMatrix
        ∧ (animate (fun _ => some 2) (fun _ => none) (fun r => r * 3) 20 wRender2).collectionMatrix
            = wRender2.collectionMatrix
        ∧ (animate (fun _ => some 2) (fun _ => none) (fun r => r * 3) 20 wRender2).recomputes
            = wRender2.recomputes
        ∧ (animate (fun _ => some 2) (fun _ => none) (fun r => r * 3) 20 wRender2).lastJDate
            = wRender2.lastJDate)
    ∧ (1 < |wRender2.currentTime - 0| →
        (animate (fun _ => some 2) (fun _ => none) (fun r => r * 3) 20 wRender2).recomputes
            = wRender2.recomputes + 1
        ∧ (animate (fun _ => some 2) (fun _ => none) (fun r => r * 3) 20 wRender2).lastJDate
            = some wRender2.currentTime
        ∧ ∀ r, (fun (_ : ℚ) => some (2 : ℚ)) wRender2.currentTime = some r →
            (animate (fun _ => some 2) (fun _ => none) (fun r => r * 3) 20 wRender2).collectionMatrix
                = some (r * 3)
            ∧ (animate (fun _ => some 2) (fun _ => none) (fun r => r * 3) 20 wRender2).modelMatrix
                = some (r * 3)) :=
  transform_rate_limit (fun _ => some 2) (fun _ => none) (fun r => r * 3) 20 wRender2 0
    rfl
    (by show ¬ (20 : ℚ) < |(10 : ℚ) - 10|; norm_num)

end SGP4GLDemo
